import Mathlib

/-!
Verification of the learning-pattern analytics contract of the
FabriiQ grading repository.

The repository ships the tRPC router (`learningPatternsRouter`) and the UI
components that consume `LearningProfile` values; the
`LearningPatternRecognitionService` implementation itself is not part of the
provided sources.  Definitions below that embed the service are therefore
modelled from the specification's words (each such definition says so in its
doc comment); definitions for the router (`getClassLearningPatterns`,
`predictPerformance` input validation) and for the display layer
(`StudentLearningProfile` component) are translated from the source files.
-/

namespace LearningPatterns

/-- A graded activity record, following the spec's data model
`StudentActivityRecord` with fields studentId, activityId, score, maxScore,
timeSpentMinutes, completedAt.  Identifier fields not consulted by the
aggregator (`subjectId`, `bloomsLevel`) are omitted; scores and times are
rationals, `completedAt` is an integer timestamp measured in hours. -/
structure StudentActivityRecord where
  studentId : Nat
  activityId : Nat
  score : ℚ
  maxScore : ℚ
  timeSpentMinutes : ℚ
  completedAt : Int
deriving DecidableEq

/-- Per-record percentage score (`score/maxScore`, scaled to 0..100), the
quantity the spec's aggregator works with. -/
def percentage (r : StudentActivityRecord) : ℚ :=
  100 * r.score / r.maxScore

/-- The list of percentage scores of a record sequence. -/
def percents (rs : List StudentActivityRecord) : List ℚ :=
  rs.map percentage

/-- Arithmetic mean of a list of rationals (0 for the empty list, since
`0 / 0 = 0` in `ℚ`). -/
def qmean (xs : List ℚ) : ℚ :=
  xs.sum / (xs.length : ℚ)

/-- Population variance of a list of rationals. -/
def qvariance (xs : List ℚ) : ℚ :=
  ((xs.map (fun x => (x - qmean xs) ^ 2)).sum) / (xs.length : ℚ)

/-- Total sort key for records: lexicographic on every field, `completedAt`
first.  The spec requires the aggregator to "sort internally" and be
order-independent, so the modelled sort uses a key on which the order is
linear and antisymmetric. -/
def recKey (r : StudentActivityRecord) :
    Int ×ₗ (ℕ ×ₗ (ℕ ×ₗ (ℚ ×ₗ (ℚ ×ₗ ℚ)))) :=
  toLex (r.completedAt, toLex (r.studentId, toLex (r.activityId,
    toLex (r.score, toLex (r.maxScore, r.timeSpentMinutes)))))

/-- Comparison relation used by the aggregator's internal sort. -/
def recLE (a b : StudentActivityRecord) : Prop :=
  recKey a ≤ recKey b

instance : DecidableRel recLE := fun a b =>
  inferInstanceAs (Decidable (recKey a ≤ recKey b))

instance : IsTotal StudentActivityRecord recLE :=
  ⟨fun a b => le_total (recKey a) (recKey b)⟩

instance : IsTrans StudentActivityRecord recLE :=
  ⟨fun _ _ _ hab hbc => le_trans hab hbc⟩

instance : IsAntisymm StudentActivityRecord recLE :=
  ⟨fun a b hab hba => by
    have h : recKey a = recKey b := le_antisymm hab hba
    cases a
    cases b
    simp only [recKey, toLex_inj, Prod.mk.injEq] at h
    obtain ⟨h1, h2, h3, h4, h5, h6⟩ := h
    simp_all⟩

/-- Modelled from the spec: the aggregator "must sort internally, not rely on
caller order".  Time-ordering of records, with the remaining fields breaking
ties so the result is canonical. -/
def sortRecords (rs : List StudentActivityRecord) : List StudentActivityRecord :=
  List.insertionSort recLE rs

/-- Direction of a student's performance trend, as in the
`LearningProfile.performancePatterns.improvementTrend` field of the
`StudentLearningProfileProps` interface. -/
inductive Trend where
  | accelerating
  | steady
  | plateauing
  | declining
deriving DecidableEq

/-- Part of the day a record's `completedAt` falls into. -/
inductive DayPart where
  | morning
  | afternoon
  | evening
deriving DecidableEq

/-- Peak-performance bucket reported by the aggregator (`varied` renders the
spec's "variable", which is a reserved word here). -/
inductive PeakTime where
  | morning
  | afternoon
  | evening
  | varied
deriving DecidableEq

/-- Attention-span band reported by the aggregator. -/
inductive SpanClass where
  | short
  | medium
  | long
deriving DecidableEq

/-- Modelled from the spec: `consistencyScore` is "100 minus a normalized
coefficient of variation of per-record percentage scores (score/maxScore);
clamp to [0,100]; undefined (reported as 0) when fewer than 2 records".  The
coefficient of variation is the standard deviation of the percentage scores
divided by their mean, and "normalized" scales it to the 0..100 range. -/
noncomputable def consistencyScore (rs : List StudentActivityRecord) : ℝ :=
  if rs.length < 2 then 0
  else
    max 0 (min 100 (100 - 100 *
      (Real.sqrt ((qvariance (percents rs) : ℚ) : ℝ) /
        ((qmean (percents rs) : ℚ) : ℝ))))

/-- Size of the "third" of a record sequence that the trend computation
compares; at least one record so the slice means are meaningful for every
sequence of two or more records. -/
def thirdSize (n : Nat) : Nat :=
  max 1 (n / 3)

/-- Mean percentage score of the earliest third of the time-ordered records. -/
def earliestThirdMean (rs : List StudentActivityRecord) : ℚ :=
  qmean (((sortRecords rs).take (thirdSize (sortRecords rs).length)).map percentage)

/-- Mean percentage score of the most recent third of the time-ordered
records. -/
def recentThirdMean (rs : List StudentActivityRecord) : ℚ :=
  qmean (((sortRecords rs).drop
    ((sortRecords rs).length - thirdSize (sortRecords rs).length)).map percentage)

/-- Trend classification of a delta in percentage points, following the
spec's cutoffs: `accelerating` above +10, `declining` below -10, `steady`
between -10 and +5, `plateauing` otherwise. -/
def classifyDelta (d : ℚ) : Trend :=
  if 10 < d then Trend.accelerating
  else if d < -10 then Trend.declining
  else if d ≤ 5 then Trend.steady
  else Trend.plateauing

/-- Modelled from the spec: `improvementTrend` compares "the mean score of
the most recent third of records (time-ordered) against the earliest third";
with fewer than 2 records the profile is at its default value, which the
spec's empty-sequence property fixes as `plateauing`. -/
def improvementTrend (rs : List StudentActivityRecord) : Trend :=
  if rs.length < 2 then Trend.plateauing
  else classifyDelta (recentThirdMean rs - earliestThirdMean rs)

/-- Hour of day (0..23) of an hour-resolution timestamp. -/
def hourOfDay (t : Int) : Int :=
  t.emod 24

/-- Modelled from the spec: bucket `completedAt` into morning, afternoon,
evening.  The spec does not fix the bucket boundaries; the model uses morning
before 12:00, afternoon 12:00-17:00, evening otherwise. -/
def dayPartOf (t : Int) : DayPart :=
  if hourOfDay t < 12 then DayPart.morning
  else if hourOfDay t < 17 then DayPart.afternoon
  else DayPart.evening

/-- The records of a sequence falling in a given part of the day. -/
def dayPartBucket (rs : List StudentActivityRecord) (b : DayPart) :
    List StudentActivityRecord :=
  rs.filter (fun r => decide (dayPartOf r.completedAt = b))

/-- Mean percentage score of a bucket. -/
def bucketScore (l : List StudentActivityRecord) : ℚ :=
  qmean (l.map percentage)

/-- The day-part buckets qualifying for the peak-time report (at least 3
records each), with their mean scores, in day order. -/
def peakCands (rs : List StudentActivityRecord) : List (PeakTime × ℚ) :=
  (if 3 ≤ (dayPartBucket rs DayPart.morning).length then
    [(PeakTime.morning, bucketScore (dayPartBucket rs DayPart.morning))] else []) ++
  (if 3 ≤ (dayPartBucket rs DayPart.afternoon).length then
    [(PeakTime.afternoon, bucketScore (dayPartBucket rs DayPart.afternoon))] else []) ++
  (if 3 ≤ (dayPartBucket rs DayPart.evening).length then
    [(PeakTime.evening, bucketScore (dayPartBucket rs DayPart.evening))] else [])

/-- The qualifying bucket with the highest mean score (earlier day part on
ties); `varied` when no bucket qualifies. -/
def pickBest : List (PeakTime × ℚ) → PeakTime
  | [] => PeakTime.varied
  | c :: cs => (cs.foldl (fun best x => if best.2 < x.2 then x else best) c).1

/-- Modelled from the spec: "report bucket with highest mean score;
`variable` if no bucket has >= 3 records". -/
def peakPerformanceTime (rs : List StudentActivityRecord) : PeakTime :=
  pickBest (peakCands rs)

/-- Mean of per-record time spent relative to the activity's configured
expected duration (the `expected` external input). -/
def spanRatio (expected : Nat → ℚ) (rs : List StudentActivityRecord) : ℚ :=
  qmean (rs.map (fun r => r.timeSpentMinutes / expected r.activityId))

/-- Modelled from the spec: `attentionSpan` is "derived from average
`timeSpentMinutes` per activity relative to the activity's configured
expected duration (external input); `short` (<60% of expected), `medium`
(60-120%), `long` (>120%)".  An empty sequence yields the neutral `medium`. -/
def attentionSpan (expected : Nat → ℚ) (rs : List StudentActivityRecord) :
    SpanClass :=
  if rs.length = 0 then SpanClass.medium
  else if spanRatio expected rs < 3 / 5 then SpanClass.short
  else if spanRatio expected rs ≤ 6 / 5 then SpanClass.medium
  else SpanClass.long

/-- The partial profile produced by the Pattern Aggregator
(`aggregate(records) -> performancePatterns ∪ engagementPatterns`); the four
fields the spec defines formulas for. -/
structure AggregatePatterns where
  consistencyScore : ℝ
  improvementTrend : Trend
  peakPerformanceTime : PeakTime
  attentionSpan : SpanClass

/-- Modelled from the spec: the Pattern Aggregator, one field per contract
clause of spec section 4.2. -/
noncomputable def aggregate (expected : Nat → ℚ)
    (rs : List StudentActivityRecord) : AggregatePatterns :=
  { consistencyScore := consistencyScore rs
    improvementTrend := improvementTrend rs
    peakPerformanceTime := peakPerformanceTime rs
    attentionSpan := attentionSpan expected rs }

/-- Severity of a risk factor. -/
inductive Severity where
  | low
  | medium
  | high
deriving DecidableEq

/-- A flagged risk, as in the `riskFactors` entries of the profile interface:
factor, severity, description, interventions. -/
structure RiskFactor where
  factor : String
  severity : Severity
  description : String
  interventions : List String
deriving DecidableEq

/-- The explicit marker a profile derived from zero records carries, per the
spec's "zero risk factors beyond insufficient data". -/
def insufficientDataRisk : RiskFactor :=
  { factor := "insufficient data"
    severity := Severity.low
    description := "not enough graded records to analyze"
    interventions := [] }

/-- Modelled from the spec: the risk rule table of section 4.3, evaluated in
its fixed order; a profile computed from zero records instead carries only
the explicit `insufficient data` marker (sections 7 and 8). -/
noncomputable def deriveRisks (rs : List StudentActivityRecord)
    (agg : AggregatePatterns) : List RiskFactor :=
  if rs.isEmpty then [insufficientDataRisk]
  else
    (if agg.consistencyScore < 40 then
      [{ factor := "inconsistent performance"
         severity := Severity.high
         description := "scores vary widely between activities"
         interventions := ["review study habits"] }]
     else []) ++
    (if agg.improvementTrend = Trend.declining then
      [{ factor := "declining trend"
         severity := Severity.medium
         description := "recent scores are falling"
         interventions := ["schedule a check-in"] }]
     else []) ++
    (if agg.attentionSpan = SpanClass.short ∧ agg.consistencyScore < 60 then
      [{ factor := "low engagement"
         severity := Severity.medium
         description := "short attention span with unstable scores"
         interventions := ["shorter activities"] }]
     else [])

/-- Modelled from the spec: "Strengths mirror inverse thresholds
(consistencyScore >= 80 -> consistent performer)"; an empty record sequence
yields a default profile with no strengths. -/
noncomputable def deriveStrengths (rs : List StudentActivityRecord)
    (agg : AggregatePatterns) : List String :=
  if rs.isEmpty then []
  else if 80 ≤ agg.consistencyScore then ["consistent performer"]
  else []

/-- An entry of the static recommendation rule table: the risk factor it is
keyed on, its severity, and the recommendation text. -/
structure RecRule where
  factor : String
  severity : Severity
  recommendation : String
deriving DecidableEq

/-- Modelled from the spec: the static recommendation lookup table, in
insertion order, keyed by risk factor. -/
def recRuleTable : List RecRule :=
  [ { factor := "inconsistent performance"
      severity := Severity.high
      recommendation := "mix easier review activities between new material" }
  , { factor := "declining trend"
      severity := Severity.medium
      recommendation := "revisit the topics where scores started to drop" }
  , { factor := "low engagement"
      severity := Severity.medium
      recommendation := "try shorter, more interactive activities" }
  , { factor := "insufficient data"
      severity := Severity.low
      recommendation := "complete more graded activities to unlock insights" } ]

/-- Factor names of the active risk factors, the key of the recommendation
lookup. -/
def activeFactors (risks : List RiskFactor) : List String :=
  risks.map (fun r => r.factor)

/-- Table entries whose factor is among the active risk factors. -/
def ruleHits (active : List String) : List RecRule :=
  recRuleTable.filter (fun e => active.contains e.factor)

/-- Active table entries ordered by severity (high, then medium, then low),
ties kept in the table's insertion order. -/
def orderedHits (active : List String) : List RecRule :=
  (ruleHits active).filter (fun e => decide (e.severity = Severity.high)) ++
  (ruleHits active).filter (fun e => decide (e.severity = Severity.medium)) ++
  (ruleHits active).filter (fun e => decide (e.severity = Severity.low))

/-- Modelled from the spec: "Recommendations are a static lookup keyed by the
union of active risk factors", ties broken by severity then insertion order
of the rule table. -/
def deriveRecommendations (risks : List RiskFactor) : List String :=
  (orderedHits (activeFactors risks)).map (fun e => e.recommendation)

/-- Numeric rank of a severity, for stating the ordering property. -/
def sevRank : Severity → Nat
  | Severity.high => 2
  | Severity.medium => 1
  | Severity.low => 0

/-- The derived learning profile: the aggregator's partial profile plus the
heuristic outputs, as in the `StudentLearningProfileProps` interface. -/
structure LearningProfile where
  performancePatterns : AggregatePatterns
  riskFactors : List RiskFactor
  strengths : List String
  adaptiveRecommendations : List String

/-- Modelled from the spec: the full per-student analysis, Pattern Aggregator
followed by the Risk/Recommendation Heuristic. -/
noncomputable def buildProfile (expected : Nat → ℚ)
    (rs : List StudentActivityRecord) : LearningProfile :=
  { performancePatterns := aggregate expected rs
    riskFactors := deriveRisks rs (aggregate expected rs)
    strengths := deriveStrengths rs (aggregate expected rs)
    adaptiveRecommendations :=
      deriveRecommendations (deriveRisks rs (aggregate expected rs)) }

/-- An optional analysis time window, as in the router's
`timeframe` input with optional start and end dates. -/
structure Timeframe where
  windowStart : Option Int
  windowEnd : Option Int

/-- Whether a completion timestamp falls inside the requested window. -/
def inWindow (tf : Option Timeframe) (t : Int) : Bool :=
  match tf with
  | none => true
  | some w =>
    (match w.windowStart with
     | none => true
     | some s => decide (s ≤ t)) &&
    (match w.windowEnd with
     | none => true
     | some e => decide (t ≤ e))

/-- The stored records visible to one `analyzeStudentPatterns` request: the
requested student's records inside the requested window. -/
def visibleRecords (db : List StudentActivityRecord) (sid : Nat)
    (tf : Option Timeframe) : List StudentActivityRecord :=
  db.filter (fun r => decide (r.studentId = sid) && inWindow tf r.completedAt)

/-- Modelled from the spec: `analyzeStudentPatterns(studentId, timeframe?) ->
LearningProfile`, computed fresh per request from the visible record set
(router source: `service.analyzeStudentLearningPatterns(input.studentId,
input.timeframe)` on a service constructed per request). -/
noncomputable def analyzeStudentPatterns (expected : Nat → ℚ)
    (db : List StudentActivityRecord) (sid : Nat) (tf : Option Timeframe) :
    LearningProfile :=
  buildProfile expected (visibleRecords db sid tf)

/-- Displayed risk factors: the `StudentLearningProfile` component renders
`profile.riskFactors.slice(0, 2)`. -/
def displayedRiskFactors (p : LearningProfile) : List RiskFactor :=
  p.riskFactors.take 2

/-- Displayed strengths: the component renders
`profile.strengths.slice(0, 3)`. -/
def displayedStrengths (p : LearningProfile) : List String :=
  p.strengths.take 3

/-- Displayed recommendations: the component renders
`profile.adaptiveRecommendations.slice(0, 2)` under "Top Recommendations". -/
def displayedRecommendations (p : LearningProfile) : List String :=
  p.adaptiveRecommendations.take 2

/-- A class enrollment row, as loaded by the router's
`studentEnrollment.findMany` (student id and display name). -/
structure Enrollment where
  studentId : Nat
  studentName : String

/-- Failure of one per-student analysis (the spec's `UpstreamFailure` /
`NotFoundError` taxonomy). -/
inductive AnalysisError where
  | upstreamFailure
  | notFound
deriving DecidableEq

/-- One element of the router's `studentPatterns` array:
studentId, studentName, patterns. -/
structure StudentPatternEntry where
  studentId : Nat
  studentName : String
  patterns : LearningProfile

/-- The router's `classAverages` object.  The JavaScript source divides by
`studentPatterns.length` with no zero guard; `none` models the NaN its
division produces when that length is 0. -/
structure ClassAverages where
  consistencyScore : Option ℝ
  riskFactorCount : Option ℝ

/-- The router's `getClassLearningPatterns` response object. -/
structure ClassPatterns where
  classId : String
  studentCount : Nat
  studentPatterns : List StudentPatternEntry
  classAverages : ClassAverages

/-- `sum / length` as the JavaScript source computes it, with `none` for the
NaN of a division by zero length. -/
noncomputable def jsAvg (xs : List ℝ) : Option ℝ :=
  if xs.length = 0 then none else some (xs.sum / (xs.length : ℝ))

/-- `Promise.all` over already-started analyses: succeeds with every result
when all succeed, and rejects with a failure when any analysis fails (the
source has no per-student handler, so one rejection rejects the whole
batch). -/
def promiseAll {ε α : Type} : List (Except ε α) → Except ε (List α)
  | [] => Except.ok []
  | x :: xs =>
    match x with
    | Except.error e => Except.error e
    | Except.ok a => (promiseAll xs).map (fun as => a :: as)

/-- The router's `getClassLearningPatterns` (src/unnamed/part_004, lines
113-164): map every enrollment through the per-student analysis under
`Promise.all`, then return `studentCount = classStudents.length` and
`classAverages` as `reduce(...) / studentPatterns.length`.  The per-student
service call is the `analyze` parameter. -/
noncomputable def getClassLearningPatterns (classId : String)
    (enrollments : List Enrollment)
    (analyze : Nat → Except AnalysisError LearningProfile) :
    Except AnalysisError ClassPatterns :=
  (promiseAll (enrollments.map (fun e =>
      (analyze e.studentId).map (fun p =>
        StudentPatternEntry.mk e.studentId e.studentName p)))).map
    (fun sps =>
      { classId := classId
        studentCount := enrollments.length
        studentPatterns := sps
        classAverages :=
          { consistencyScore :=
              jsAvg (sps.map (fun s => s.patterns.performancePatterns.consistencyScore))
            riskFactorCount :=
              jsAvg (sps.map (fun s => (s.patterns.riskFactors.length : ℝ))) } })

/-- Bloom's taxonomy level, the router's
`z.enum` over REMEMBER..CREATE. -/
inductive BloomsLevel where
  | remember
  | understand
  | applyLevel
  | analyzeLevel
  | evaluate
  | create
deriving DecidableEq

/-- Input of the router's `predictPerformance` endpoint.  `difficulty` is a
`z.number()`, so a rational here. -/
structure PredictInput where
  studentId : String
  activityType : String
  bloomsLevel : BloomsLevel
  difficulty : ℚ

/-- The predictedScore and confidence response of `predictPerformance`. -/
structure Prediction where
  predictedScore : ℚ
  confidence : ℚ
deriving DecidableEq

/-- The router's `predictPerformance` endpoint (src/unnamed/part_004, lines
34-51): zod validates `difficulty: z.number().min(1).max(10)` before the
service runs; a valid request is forwarded to the service (the `svc`
parameter, whose implementation is outside the provided sources). -/
def predictPerformanceEndpoint (svc : PredictInput → Prediction)
    (inp : PredictInput) : Except String Prediction :=
  if 1 ≤ inp.difficulty ∧ inp.difficulty ≤ 10 then Except.ok (svc inp)
  else Except.error "invalid difficulty"

/-- A fixed external expected-duration assignment used in concrete checks. -/
def expectedEx : Nat → ℚ := fun _ => 30

/-- Concrete record fixtures for concrete evaluations. -/
def recA : StudentActivityRecord :=
  { studentId := 1, activityId := 10, score := 8, maxScore := 10
    timeSpentMinutes := 30, completedAt := 9 }

def recB : StudentActivityRecord :=
  { studentId := 1, activityId := 11, score := 6, maxScore := 10
    timeSpentMinutes := 30, completedAt := 14 }

def recOther : StudentActivityRecord :=
  { studentId := 2, activityId := 12, score := 5, maxScore := 10
    timeSpentMinutes := 30, completedAt := 10 }

def rec75a : StudentActivityRecord :=
  { studentId := 1, activityId := 1, score := 15, maxScore := 20
    timeSpentMinutes := 30, completedAt := 0 }

def rec75b : StudentActivityRecord :=
  { studentId := 1, activityId := 2, score := 75, maxScore := 100
    timeSpentMinutes := 45, completedAt := 24 }

/-- Five records with monotonically increasing scores 50..90 over five evenly
spaced timestamps, the spec's trend example. -/
def demoRecords : List StudentActivityRecord :=
  [ { studentId := 1, activityId := 1, score := 50, maxScore := 100
      timeSpentMinutes := 30, completedAt := 0 }
  , { studentId := 1, activityId := 2, score := 60, maxScore := 100
      timeSpentMinutes := 30, completedAt := 24 }
  , { studentId := 1, activityId := 3, score := 70, maxScore := 100
      timeSpentMinutes := 30, completedAt := 48 }
  , { studentId := 1, activityId := 4, score := 80, maxScore := 100
      timeSpentMinutes := 30, completedAt := 72 }
  , { studentId := 1, activityId := 5, score := 90, maxScore := 100
      timeSpentMinutes := 30, completedAt := 96 } ]

/-- A concrete profile standing for one successful per-student analysis. -/
noncomputable def sampleProfile : LearningProfile :=
  { performancePatterns :=
      { consistencyScore := 50
        improvementTrend := Trend.steady
        peakPerformanceTime := PeakTime.varied
        attentionSpan := SpanClass.medium }
    riskFactors := []
    strengths := []
    adaptiveRecommendations := [] }

/-- A per-student analysis in which student 1's analysis fails upstream and
every other student's analysis succeeds. -/
noncomputable def failingAnalyze : Nat → Except AnalysisError LearningProfile :=
  fun sid =>
    if sid = 1 then Except.error AnalysisError.upstreamFailure
    else Except.ok sampleProfile

/-- A concrete prediction service stand-in. -/
def svcEx : PredictInput → Prediction :=
  fun _ => { predictedScore := 70, confidence := 1 / 2 }

/-- A concrete in-range prediction request. -/
def inpGood : PredictInput :=
  { studentId := "s1", activityType := "quiz"
    bloomsLevel := BloomsLevel.applyLevel, difficulty := 5 }

/-- A concrete out-of-range prediction request. -/
def inpBad : PredictInput :=
  { studentId := "s1", activityType := "quiz"
    bloomsLevel := BloomsLevel.applyLevel, difficulty := 0 }

theorem sortRecords_perm (rs : List StudentActivityRecord) :
    List.Perm (sortRecords rs) rs :=
  List.perm_insertionSort recLE rs

theorem sortRecords_eq_of_perm {rs rs' : List StudentActivityRecord}
    (h : List.Perm rs rs') : sortRecords rs = sortRecords rs' :=
  List.eq_of_perm_of_sorted
    ((sortRecords_perm rs).trans (h.trans (sortRecords_perm rs').symm))
    (List.sorted_insertionSort recLE rs)
    (List.sorted_insertionSort recLE rs')

theorem qmean_perm {xs ys : List ℚ} (h : List.Perm xs ys) :
    qmean xs = qmean ys := by
  unfold qmean
  rw [h.sum_eq, h.length_eq]

theorem qvariance_perm {xs ys : List ℚ} (h : List.Perm xs ys) :
    qvariance xs = qvariance ys := by
  unfold qvariance
  rw [qmean_perm h, (h.map (fun x => (x - qmean ys) ^ 2)).sum_eq, h.length_eq]

theorem qmean_const {xs : List ℚ} {c : ℚ} (h : ∀ x ∈ xs, x = c)
    (hne : xs ≠ []) : qmean xs = c := by
  have hs : xs.sum = xs.length • c := List.sum_eq_card_nsmul xs c h
  have hl : (xs.length : ℚ) ≠ 0 := by
    exact Nat.cast_ne_zero.mpr (List.length_pos.mpr hne).ne'
  unfold qmean
  rw [hs, nsmul_eq_mul]
  field_simp

theorem qvariance_const {xs : List ℚ} {c : ℚ} (h : ∀ x ∈ xs, x = c)
    (hne : xs ≠ []) : qvariance xs = 0 := by
  have hz : ∀ y ∈ xs.map (fun x => (x - qmean xs) ^ 2), y = 0 := by
    intro y hy
    obtain ⟨x, hx, rfl⟩ := List.mem_map.mp hy
    rw [h x hx, qmean_const h hne]
    ring
  have hs : (xs.map (fun x => (x - qmean xs) ^ 2)).sum =
      (xs.map (fun x => (x - qmean xs) ^ 2)).length • (0 : ℚ) :=
    List.sum_eq_card_nsmul _ 0 hz
  unfold qvariance
  rw [hs]
  simp

theorem consistencyScore_perm {rs rs' : List StudentActivityRecord}
    (h : List.Perm rs rs') : consistencyScore rs = consistencyScore rs' := by
  have hp : List.Perm (percents rs) (percents rs') := h.map percentage
  unfold consistencyScore
  rw [h.length_eq, qmean_perm hp, qvariance_perm hp]

theorem earliestThirdMean_perm {rs rs' : List StudentActivityRecord}
    (h : List.Perm rs rs') : earliestThirdMean rs = earliestThirdMean rs' := by
  unfold earliestThirdMean
  rw [sortRecords_eq_of_perm h]

theorem recentThirdMean_perm {rs rs' : List StudentActivityRecord}
    (h : List.Perm rs rs') : recentThirdMean rs = recentThirdMean rs' := by
  unfold recentThirdMean
  rw [sortRecords_eq_of_perm h]

theorem improvementTrend_perm {rs rs' : List StudentActivityRecord}
    (h : List.Perm rs rs') : improvementTrend rs = improvementTrend rs' := by
  unfold improvementTrend
  rw [h.length_eq, earliestThirdMean_perm h, recentThirdMean_perm h]

theorem dayPartBucket_perm {rs rs' : List StudentActivityRecord}
    (h : List.Perm rs rs') (b : DayPart) :
    List.Perm (dayPartBucket rs b) (dayPartBucket rs' b) :=
  h.filter _

theorem bucketScore_perm {l l' : List StudentActivityRecord}
    (h : List.Perm l l') : bucketScore l = bucketScore l' :=
  qmean_perm (h.map percentage)

theorem peakCands_perm {rs rs' : List StudentActivityRecord}
    (h : List.Perm rs rs') : peakCands rs = peakCands rs' := by
  have hm := dayPartBucket_perm h DayPart.morning
  have ha := dayPartBucket_perm h DayPart.afternoon
  have he := dayPartBucket_perm h DayPart.evening
  unfold peakCands
  rw [hm.length_eq, bucketScore_perm hm, ha.length_eq, bucketScore_perm ha,
    he.length_eq, bucketScore_perm he]

theorem peakPerformanceTime_perm {rs rs' : List StudentActivityRecord}
    (h : List.Perm rs rs') :
    peakPerformanceTime rs = peakPerformanceTime rs' := by
  unfold peakPerformanceTime
  rw [peakCands_perm h]

theorem spanRatio_perm (expected : Nat → ℚ) {rs rs' : List StudentActivityRecord}
    (h : List.Perm rs rs') : spanRatio expected rs = spanRatio expected rs' :=
  qmean_perm (h.map _)

theorem attentionSpan_perm (expected : Nat → ℚ)
    {rs rs' : List StudentActivityRecord} (h : List.Perm rs rs') :
    attentionSpan expected rs = attentionSpan expected rs' := by
  unfold attentionSpan
  rw [h.length_eq, spanRatio_perm expected h]

theorem thirdSize_le {n : Nat} (h : 1 ≤ n) : thirdSize n ≤ n := by
  unfold thirdSize
  exact max_le h (Nat.div_le_self n 3)

theorem percents_const {rs : List StudentActivityRecord}
    (h : ∀ r ∈ rs, percentage r = 75) : ∀ x ∈ percents rs, x = (75 : ℚ) := by
  intro x hx
  obtain ⟨r, hr, rfl⟩ := List.mem_map.mp hx
  exact h r hr

theorem percents_ne_nil {rs : List StudentActivityRecord} (h : rs ≠ []) :
    percents rs ≠ [] := by
  unfold percents
  intro hc
  exact h (List.map_eq_nil_iff.mp hc)

theorem consistencyScore_const75 {rs : List StudentActivityRecord}
    (h2 : 2 ≤ rs.length) (h75 : ∀ r ∈ rs, percentage r = 75) :
    consistencyScore rs = 100 := by
  have hne : rs ≠ [] := by
    intro hc
    rw [hc] at h2
    simp at h2
  have hm : qmean (percents rs) = 75 :=
    qmean_const (percents_const h75) (percents_ne_nil hne)
  have hv : qvariance (percents rs) = 0 :=
    qvariance_const (percents_const h75) (percents_ne_nil hne)
  unfold consistencyScore
  rw [if_neg (by omega), hm, hv, Rat.cast_zero, Real.sqrt_zero]
  norm_num

theorem earliestThirdMean_const75 {rs : List StudentActivityRecord}
    (h2 : 2 ≤ rs.length) (h75 : ∀ r ∈ rs, percentage r = 75) :
    earliestThirdMean rs = 75 := by
  have hperm := sortRecords_perm rs
  have hlen : (sortRecords rs).length = rs.length := hperm.length_eq
  have hmem : ∀ r ∈ sortRecords rs, percentage r = 75 :=
    fun r hr => h75 r (hperm.subset hr)
  have hkn : thirdSize (sortRecords rs).length ≤ (sortRecords rs).length :=
    thirdSize_le (by omega)
  have htake : ((sortRecords rs).take (thirdSize (sortRecords rs).length)).length
      = thirdSize (sortRecords rs).length := by
    rw [List.length_take]
    omega
  have hconst : ∀ x ∈ ((sortRecords rs).take
      (thirdSize (sortRecords rs).length)).map percentage, x = (75 : ℚ) := by
    intro x hx
    obtain ⟨r, hr, rfl⟩ := List.mem_map.mp hx
    exact hmem r (List.take_subset _ _ hr)
  have hne : ((sortRecords rs).take
      (thirdSize (sortRecords rs).length)).map percentage ≠ [] := by
    intro hc
    have hl := congrArg List.length hc
    rw [List.length_map, htake] at hl
    have : 1 ≤ thirdSize (sortRecords rs).length := le_max_left 1 _
    simp at hl
    omega
  unfold earliestThirdMean
  exact qmean_const hconst hne

theorem recentThirdMean_const75 {rs : List StudentActivityRecord}
    (h2 : 2 ≤ rs.length) (h75 : ∀ r ∈ rs, percentage r = 75) :
    recentThirdMean rs = 75 := by
  have hperm := sortRecords_perm rs
  have hlen : (sortRecords rs).length = rs.length := hperm.length_eq
  have hmem : ∀ r ∈ sortRecords rs, percentage r = 75 :=
    fun r hr => h75 r (hperm.subset hr)
  have hkn : thirdSize (sortRecords rs).length ≤ (sortRecords rs).length :=
    thirdSize_le (by omega)
  have hdrop : ((sortRecords rs).drop
      ((sortRecords rs).length - thirdSize (sortRecords rs).length)).length
      = thirdSize (sortRecords rs).length := by
    rw [List.length_drop]
    omega
  have hconst : ∀ x ∈ ((sortRecords rs).drop
      ((sortRecords rs).length - thirdSize (sortRecords rs).length)).map
      percentage, x = (75 : ℚ) := by
    intro x hx
    obtain ⟨r, hr, rfl⟩ := List.mem_map.mp hx
    exact hmem r (List.drop_subset _ _ hr)
  have hne : ((sortRecords rs).drop
      ((sortRecords rs).length - thirdSize (sortRecords rs).length)).map
      percentage ≠ [] := by
    intro hc
    have hl := congrArg List.length hc
    rw [List.length_map, hdrop] at hl
    have : 1 ≤ thirdSize (sortRecords rs).length := le_max_left 1 _
    simp at hl
    omega
  unfold recentThirdMean
  exact qmean_const hconst hne

theorem improvementTrend_const75 {rs : List StudentActivityRecord}
    (h2 : 2 ≤ rs.length) (h75 : ∀ r ∈ rs, percentage r = 75) :
    improvementTrend rs = Trend.steady := by
  unfold improvementTrend
  rw [if_neg (by omega), earliestThirdMean_const75 h2 h75,
    recentThirdMean_const75 h2 h75]
  rw [show (75 : ℚ) - 75 = 0 by ring]
  unfold classifyDelta
  rw [if_neg (by norm_num), if_neg (by norm_num), if_pos (by norm_num)]

theorem sevRank_le_two (s : Severity) : sevRank s ≤ 2 := by
  cases s <;> simp [sevRank]

theorem ruleHits_congr {a1 a2 : List String}
    (h : ∀ s, s ∈ a1 ↔ s ∈ a2) : ruleHits a1 = ruleHits a2 := by
  unfold ruleHits
  apply List.filter_congr
  intro e _
  simp only [List.elem_eq_mem]
  exact decide_eq_decide.mpr (h e.factor)

theorem orderedHits_congr {a1 a2 : List String}
    (h : ∀ s, s ∈ a1 ↔ s ∈ a2) : orderedHits a1 = orderedHits a2 := by
  unfold orderedHits
  rw [ruleHits_congr h]

theorem orderedHits_sorted (active : List String) :
    (orderedHits active).Pairwise
      (fun x y => sevRank y.severity ≤ sevRank x.severity) := by
  have hH : ∀ e ∈ (ruleHits active).filter
      (fun e => decide (e.severity = Severity.high)),
      sevRank e.severity = 2 := by
    intro e he
    have he2 := of_decide_eq_true (List.mem_filter.mp he).2
    rw [he2]
    rfl
  have hM : ∀ e ∈ (ruleHits active).filter
      (fun e => decide (e.severity = Severity.medium)),
      sevRank e.severity = 1 := by
    intro e he
    have he2 := of_decide_eq_true (List.mem_filter.mp he).2
    rw [he2]
    rfl
  have hL : ∀ e ∈ (ruleHits active).filter
      (fun e => decide (e.severity = Severity.low)),
      sevRank e.severity = 0 := by
    intro e he
    have he2 := of_decide_eq_true (List.mem_filter.mp he).2
    rw [he2]
    rfl
  unfold orderedHits
  refine List.pairwise_append.mpr ⟨List.pairwise_append.mpr
    ⟨?_, ?_, ?_⟩, ?_, ?_⟩
  · exact List.pairwise_of_forall_mem_list
      (fun x hx y _ => by rw [hH x hx]; exact sevRank_le_two _)
  · exact List.pairwise_of_forall_mem_list
      (fun x hx y hy => by rw [hM x hx, hM y hy])
  · intro x hx y hy
    rw [hH x hx]
    exact sevRank_le_two _
  · exact List.pairwise_of_forall_mem_list
      (fun x hx y hy => by rw [hL x hx, hL y hy])
  · intro x hx y hy
    rw [hL y hy]
    exact Nat.zero_le _

theorem promiseAll_ok_mem {ε α : Type} {l : List (Except ε α)} {res : List α}
    (h : promiseAll l = Except.ok res) : ∀ x ∈ l, ∃ a, x = Except.ok a := by
  induction l generalizing res with
  | nil =>
    intro x hx
    cases hx
  | cons y ys ih =>
    intro x hx
    cases y with
    | error e => simp [promiseAll] at h
    | ok a =>
      rcases List.mem_cons.mp hx with rfl | hmem
      · exact ⟨a, rfl⟩
      · simp only [promiseAll] at h
        cases hp : promiseAll ys with
        | error e =>
          rw [hp] at h
          simp [Except.map] at h
        | ok as => exact ih hp x hmem

theorem promiseAll_map_ok {ε α β : Type} (g : α → β) (l : List α) :
    promiseAll (l.map (fun a => (Except.ok (g a) : Except ε β))) =
      Except.ok (l.map g) := by
  induction l with
  | nil => rfl
  | cons x xs ih => simp [promiseAll, ih, Except.map]

/-- C2: for every sequence of `StudentActivityRecord` values (including the
empty sequence), the `consistencyScore` produced by the aggregator lies in
the closed interval [0,100]; it equals 100 minus a normalized coefficient of
variation of per-record percentage scores clamped to [0,100], and is
reported as 0 when fewer than 2 records are given. -/
theorem claimC2_consistencyScore_contract (rs : List StudentActivityRecord) :
    (0 ≤ consistencyScore rs ∧ consistencyScore rs ≤ 100) ∧
    (rs.length < 2 → consistencyScore rs = 0) ∧
    (2 ≤ rs.length → consistencyScore rs =
      max 0 (min 100 (100 - 100 *
        (Real.sqrt ((qvariance (percents rs) : ℚ) : ℝ) /
          ((qmean (percents rs) : ℚ) : ℝ))))) := by
  by_cases h : rs.length < 2
  · refine ⟨?_, fun _ => ?_, fun h2 => absurd h2 (by omega)⟩
    · unfold consistencyScore
      rw [if_pos h]
      norm_num
    · unfold consistencyScore
      rw [if_pos h]
  · refine ⟨?_, fun hlt => absurd hlt h, fun _ => ?_⟩
    · unfold consistencyScore
      rw [if_neg h]
      constructor
      · exact le_max_left 0 _
      · exact max_le (by norm_num) (min_le_left _ _)
    · unfold consistencyScore
      rw [if_neg h]

/-- Witness for C2 at concrete inputs: the empty sequence scores 0 and a
two-record sequence stays inside [0,100]. -/
theorem claimC2_witness :
    consistencyScore [] = 0 ∧
    0 ≤ consistencyScore [recA, recB] ∧ consistencyScore [recA, recB] ≤ 100 :=
  ⟨(claimC2_consistencyScore_contract []).2.1 (by simp),
   (claimC2_consistencyScore_contract [recA, recB]).1.1,
   (claimC2_consistencyScore_contract [recA, recB]).1.2⟩

/-- C3: for the empty record sequence the analysis does not fail: it returns
a profile with every field at its default/neutral value, specifically
`consistencyScore = 0`, `improvementTrend = plateauing`, and no risk factors
other than "insufficient data". -/
theorem claimC3_empty_profile (expected : Nat → ℚ) :
    (buildProfile expected []).performancePatterns.consistencyScore = 0 ∧
    (buildProfile expected []).performancePatterns.improvementTrend =
      Trend.plateauing ∧
    (buildProfile expected []).riskFactors = [insufficientDataRisk] := by
  refine ⟨?_, ?_, ?_⟩
  · simp [buildProfile, aggregate, consistencyScore]
  · simp [buildProfile, aggregate, improvementTrend]
  · simp [buildProfile, deriveRisks]

/-- C8: `predictPerformance` accepts a difficulty only in the range 1..10:
requests outside [1,10] are rejected by input validation before the service
runs (the rejection does not depend on the service), and requests within the
range return a prediction object produced by the service. -/
theorem claimC8_difficulty_validation (svc : PredictInput → Prediction)
    (inp : PredictInput) :
    (¬(1 ≤ inp.difficulty ∧ inp.difficulty ≤ 10) →
      predictPerformanceEndpoint svc inp = Except.error "invalid difficulty" ∧
      ∀ svc' : PredictInput → Prediction,
        predictPerformanceEndpoint svc inp = predictPerformanceEndpoint svc' inp) ∧
    ((1 ≤ inp.difficulty ∧ inp.difficulty ≤ 10) →
      predictPerformanceEndpoint svc inp = Except.ok (svc inp)) := by
  constructor
  · intro h
    constructor
    · unfold predictPerformanceEndpoint
      rw [if_neg h]
    · intro svc'
      unfold predictPerformanceEndpoint
      rw [if_neg h, if_neg h]
  · intro h
    unfold predictPerformanceEndpoint
    rw [if_pos h]

/-- Witness for C8: difficulty 0 is rejected, difficulty 5 is answered. -/
theorem claimC8_witness :
    predictPerformanceEndpoint svcEx inpBad = Except.error "invalid difficulty" ∧
    predictPerformanceEndpoint svcEx inpGood = Except.ok (svcEx inpGood) :=
  ⟨((claimC8_difficulty_validation svcEx inpBad).1
      (by norm_num [inpBad])).1,
   (claimC8_difficulty_validation svcEx inpGood).2
      (by norm_num [inpGood])⟩

/-- C5: reordering the record sequence does not change the aggregator's
output; the aggregate is a pure function of the record multiset. -/
theorem claimC5_order_independence (expected : Nat → ℚ)
    (rs rs' : List StudentActivityRecord) (h : List.Perm rs rs') :
    aggregate expected rs = aggregate expected rs' := by
  unfold aggregate
  rw [consistencyScore_perm h, improvementTrend_perm h,
    peakPerformanceTime_perm h, attentionSpan_perm expected h]

/-- Witness for C5: swapping two concrete records leaves the aggregate
unchanged. -/
theorem claimC5_witness :
    aggregate expectedEx [recA, recB] = aggregate expectedEx [recB, recA] :=
  claimC5_order_independence expectedEx [recA, recB] [recB, recA]
    (List.Perm.swap recB recA [])

theorem demoRecords_sorted : List.Sorted recLE demoRecords := by decide

theorem sortRecords_demo : sortRecords demoRecords = demoRecords :=
  List.eq_of_perm_of_sorted (sortRecords_perm demoRecords)
    (List.sorted_insertionSort recLE demoRecords) demoRecords_sorted

theorem earliestThirdMean_demo : earliestThirdMean demoRecords = 50 := by
  unfold earliestThirdMean
  rw [sortRecords_demo]
  norm_num [demoRecords, thirdSize, qmean, percentage]

theorem recentThirdMean_demo : recentThirdMean demoRecords = 90 := by
  unfold recentThirdMean
  rw [sortRecords_demo]
  norm_num [demoRecords, thirdSize, qmean, percentage]

/-- C4: for at least two records, `improvementTrend` is classified from the
difference between the mean score of the most recent third of time-ordered
records and the mean of the earliest third (accelerating above +10pp,
declining below -10pp, steady in -10..+5, plateauing otherwise); in
particular the monotone 50,60,70,80,90 example over five evenly spaced
timestamps is `accelerating`. -/
theorem claimC4_trend_classification :
    (∀ rs : List StudentActivityRecord, 2 ≤ rs.length →
      ((10 < recentThirdMean rs - earliestThirdMean rs →
          improvementTrend rs = Trend.accelerating) ∧
       (recentThirdMean rs - earliestThirdMean rs < -10 →
          improvementTrend rs = Trend.declining) ∧
       (-10 ≤ recentThirdMean rs - earliestThirdMean rs ∧
          recentThirdMean rs - earliestThirdMean rs ≤ 5 →
          improvementTrend rs = Trend.steady) ∧
       (5 < recentThirdMean rs - earliestThirdMean rs ∧
          recentThirdMean rs - earliestThirdMean rs ≤ 10 →
          improvementTrend rs = Trend.plateauing))) ∧
    improvementTrend demoRecords = Trend.accelerating := by
  constructor
  · intro rs hlen
    have hif : ¬ rs.length < 2 := by omega
    refine ⟨fun hd => ?_, fun hd => ?_, fun hd => ?_, fun hd => ?_⟩ <;>
      unfold improvementTrend classifyDelta <;> rw [if_neg hif]
    · rw [if_pos hd]
    · rw [if_neg (by linarith), if_pos hd]
    · rw [if_neg (by linarith), if_neg (by linarith), if_pos hd.2]
    · rw [if_neg (by linarith), if_neg (by linarith), if_neg (by linarith)]
  · unfold improvementTrend
    rw [if_neg (by simp [demoRecords]), earliestThirdMean_demo,
      recentThirdMean_demo]
    unfold classifyDelta
    rw [if_pos (by norm_num)]

/-- Witness for C4: the accelerating branch applied to the concrete
monotone example. -/
theorem claimC4_witness : improvementTrend demoRecords = Trend.accelerating :=
  (claimC4_trend_classification.1 demoRecords (by simp [demoRecords])).1
    (by rw [earliestThirdMean_demo, recentThirdMean_demo]; norm_num)

/-- Counterexample for C6 as stated: the empty sequence satisfies "all
records score exactly 75%" vacuously, yet its consistency score is 0 (not
close to 100), "consistent performer" is not among its strengths, and its
risk-factor list is not empty (it carries the insufficient-data marker). -/
theorem claimC6_counterexample :
    consistencyScore ([] : List StudentActivityRecord) = 0 ∧
    "consistent performer" ∉ (buildProfile expectedEx []).strengths ∧
    (buildProfile expectedEx []).riskFactors ≠ [] := by
  refine ⟨?_, ?_, ?_⟩
  · simp [consistencyScore]
  · simp [buildProfile, deriveStrengths]
  · simp [buildProfile, deriveRisks]

/-- C6 (amended to sequences of at least two records, which the
fewer-than-2-records rule forces): when every record scores exactly 75% of
its maxScore, the profile has consistencyScore 100, its strengths include
"consistent performer", and its riskFactors list is empty. -/
theorem claimC6_uniform75 (expected : Nat → ℚ)
    (rs : List StudentActivityRecord) (h2 : 2 ≤ rs.length)
    (h75 : ∀ r ∈ rs, percentage r = 75) :
    (buildProfile expected rs).performancePatterns.consistencyScore = 100 ∧
    "consistent performer" ∈ (buildProfile expected rs).strengths ∧
    (buildProfile expected rs).riskFactors = [] := by
  have hcs := consistencyScore_const75 h2 h75
  have htr := improvementTrend_const75 h2 h75
  have hne : rs ≠ [] := by
    intro hc
    rw [hc] at h2
    simp at h2
  have hie : rs.isEmpty = false := by
    cases rs with
    | nil => exact absurd rfl hne
    | cons a l => rfl
  have h80 : (80 : ℝ) ≤ consistencyScore rs := by
    rw [hcs]
    norm_num
  have h40 : ¬ (consistencyScore rs < 40) := by
    rw [hcs]
    norm_num
  have h60 : ¬ (consistencyScore rs < 60) := by
    rw [hcs]
    norm_num
  refine ⟨?_, ?_, ?_⟩
  · simp [buildProfile, aggregate, hcs]
  · simp [buildProfile, deriveStrengths, aggregate, hie, h80]
  · simp [buildProfile, deriveRisks, aggregate, hie, h40, h60, htr]

/-- Witness for C6 (amended): two concrete records scoring 15/20 and 75/100
give consistency 100, the "consistent performer" strength, and no risks. -/
theorem claimC6_witness :
    (buildProfile expectedEx
      [rec75a, rec75b]).performancePatterns.consistencyScore = 100 ∧
    "consistent performer" ∈
      (buildProfile expectedEx [rec75a, rec75b]).strengths ∧
    (buildProfile expectedEx [rec75a, rec75b]).riskFactors = [] :=
  claimC6_uniform75 expectedEx [rec75a, rec75b] (by simp)
    (by
      intro r hr
      simp only [List.mem_cons, List.not_mem_nil, or_false] at hr
      rcases hr with rfl | rfl <;> norm_num [percentage, rec75a, rec75b])

/-- C7: the adaptive recommendations of every derived profile are a static
lookup keyed by the active risk factors (profiles with the same active
factor set get the same list), ordered by severity with ties in table
insertion order, and capped for display at 2 items (within the observed 2-3
cap). -/
theorem claimC7_recommendation_lookup (expected : Nat → ℚ)
    (rs : List StudentActivityRecord) :
    (buildProfile expected rs).adaptiveRecommendations =
      (orderedHits (activeFactors (buildProfile expected rs).riskFactors)).map
        (fun e => e.recommendation) ∧
    displayedRecommendations (buildProfile expected rs) =
      ((buildProfile expected rs).adaptiveRecommendations).take 2 ∧
    (displayedRecommendations (buildProfile expected rs)).length ≤ 3 ∧
    (∀ a1 a2 : List String, (∀ s, s ∈ a1 ↔ s ∈ a2) →
      orderedHits a1 = orderedHits a2) ∧
    (∀ active : List String, (orderedHits active).Pairwise
      (fun x y => sevRank y.severity ≤ sevRank x.severity)) := by
  refine ⟨rfl, rfl, ?_, fun a1 a2 h => orderedHits_congr h, orderedHits_sorted⟩
  unfold displayedRecommendations
  exact le_trans (List.length_take_le 2 _) (by norm_num)

/-- Witness for C7: the display cap at a concrete profile, and the lookup
keyed by factor-set membership on a concrete duplicated key list. -/
theorem claimC7_witness :
    (displayedRecommendations (buildProfile expectedEx [])).length ≤ 3 ∧
    orderedHits ["declining trend", "declining trend"] =
      orderedHits ["declining trend"] :=
  ⟨(claimC7_recommendation_lookup expectedEx []).2.2.1,
   (claimC7_recommendation_lookup expectedEx []).2.2.2.1 _ _
     (by intro s; simp)⟩

/-- C9: two `analyzeStudentPatterns` requests with the same student and
timeframe over the same stored records give identical results; the profile
is a function of the records visible in the requested window only, so
records outside the window or belonging to other students never influence
it (no hidden state between requests). -/
theorem claimC9_stateless_window (expected : Nat → ℚ)
    (db db' extra : List StudentActivityRecord) (sid : Nat)
    (tf : Option Timeframe) :
    analyzeStudentPatterns expected db sid tf =
      analyzeStudentPatterns expected db sid tf ∧
    (visibleRecords db sid tf = visibleRecords db' sid tf →
      analyzeStudentPatterns expected db sid tf =
        analyzeStudentPatterns expected db' sid tf) ∧
    ((∀ r ∈ extra, ¬(r.studentId = sid ∧ inWindow tf r.completedAt = true)) →
      analyzeStudentPatterns expected (db ++ extra) sid tf =
        analyzeStudentPatterns expected db sid tf) := by
  refine ⟨rfl, fun h => ?_, fun h => ?_⟩
  · unfold analyzeStudentPatterns
    rw [h]
  · unfold analyzeStudentPatterns
    congr 1
    unfold visibleRecords
    rw [List.filter_append]
    have hnil : extra.filter
        (fun r => decide (r.studentId = sid) && inWindow tf r.completedAt)
        = [] := by
      apply List.filter_eq_nil_iff.mpr
      intro r hr hc
      simp only [Bool.and_eq_true, decide_eq_true_eq] at hc
      exact h r hr hc
    rw [hnil, List.append_nil]

/-- Witness for C9: appending another student's record to the store does not
change student 1's profile. -/
theorem claimC9_witness :
    analyzeStudentPatterns expectedEx ([recA] ++ [recOther]) 1 none =
      analyzeStudentPatterns expectedEx [recA] 1 none :=
  (claimC9_stateless_window expectedEx [recA] [recA] [recOther] 1 none).2.2
    (by
      intro r hr
      simp only [List.mem_singleton] at hr
      subst hr
      simp [recOther])

/-- Counterexample for C1 as stated: with two enrolled students, one whose
analysis fails and one that succeeds, `getClassLearningPatterns` does not
complete with `studentCount = 2`, one profile and one error marker; the
whole batch call rejects with the failing student's error, because the
source awaits `Promise.all` with no per-student handler. -/
theorem claimC1_counterexample :
    getClassLearningPatterns "class-1"
      [{ studentId := 1, studentName := "Alice" },
       { studentId := 2, studentName := "Bob" }] failingAnalyze =
      Except.error AnalysisError.upstreamFailure := rfl

/-- C1 (amended, matching the source): a failure of one student's analysis
aborts the whole `getClassLearningPatterns` call and no partial result or
per-student error marker is returned; only when every enrolled student's
analysis succeeds does the batch complete, and then `studentCount` counts
every enrolled student and the patterns list carries one entry per student
in enrollment order. -/
theorem claimC1_batch_all_or_nothing (classId : String)
    (enrollments : List Enrollment)
    (analyze : Nat → Except AnalysisError LearningProfile) :
    (∀ e ∈ enrollments, ∀ err, analyze e.studentId = Except.error err →
      ∃ err', getClassLearningPatterns classId enrollments analyze =
        Except.error err') ∧
    (∀ profOf : Nat → LearningProfile,
      analyze = (fun s => Except.ok (profOf s)) →
      ∃ r, getClassLearningPatterns classId enrollments analyze =
          Except.ok r ∧
        r.studentCount = enrollments.length ∧
        r.studentPatterns = enrollments.map (fun e =>
          StudentPatternEntry.mk e.studentId e.studentName
            (profOf e.studentId))) := by
  constructor
  · intro e he err herr
    cases hres : getClassLearningPatterns classId enrollments analyze with
    | error err' => exact ⟨err', rfl⟩
    | ok r =>
      exfalso
      unfold getClassLearningPatterns at hres
      cases hp : promiseAll (enrollments.map (fun e =>
          (analyze e.studentId).map (fun p =>
            StudentPatternEntry.mk e.studentId e.studentName p))) with
      | error e2 =>
        rw [hp] at hres
        simp [Except.map] at hres
      | ok sps =>
        have hmem := promiseAll_ok_mem hp
          ((analyze e.studentId).map (fun p =>
            StudentPatternEntry.mk e.studentId e.studentName p))
          (List.mem_map_of_mem _ he)
        obtain ⟨a, ha⟩ := hmem
        rw [herr] at ha
        simp [Except.map] at ha
  · intro profOf hfun
    subst hfun
    have hok : (enrollments.map (fun e =>
        ((fun s => Except.ok (profOf s)) e.studentId).map (fun p =>
          StudentPatternEntry.mk e.studentId e.studentName p))) =
        enrollments.map (fun e =>
          (Except.ok (StudentPatternEntry.mk e.studentId e.studentName
            (profOf e.studentId)) : Except AnalysisError StudentPatternEntry)) := by
      apply List.map_congr_left
      intro e _
      rfl
    have hres : getClassLearningPatterns classId enrollments
        (fun s => Except.ok (profOf s)) = Except.ok
        { classId := classId
          studentCount := enrollments.length
          studentPatterns := enrollments.map (fun e =>
            StudentPatternEntry.mk e.studentId e.studentName
              (profOf e.studentId))
          classAverages :=
            { consistencyScore := jsAvg ((enrollments.map (fun e =>
                StudentPatternEntry.mk e.studentId e.studentName
                  (profOf e.studentId))).map
                (fun s => s.patterns.performancePatterns.consistencyScore))
              riskFactorCount := jsAvg ((enrollments.map (fun e =>
                StudentPatternEntry.mk e.studentId e.studentName
                  (profOf e.studentId))).map
                (fun s => (s.patterns.riskFactors.length : ℝ))) } } := by
      unfold getClassLearningPatterns
      rw [hok, promiseAll_map_ok
        (fun e => StudentPatternEntry.mk e.studentId e.studentName
          (profOf e.studentId)) enrollments]
      rfl
    exact ⟨_, hres, rfl, rfl⟩

/-- Witness for C1 (amended): the failing branch at a concrete two-student
class and the all-success branch at a concrete one-student class. -/
theorem claimC1_witness :
    (∃ err', getClassLearningPatterns "class-1"
      [{ studentId := 1, studentName := "Alice" },
       { studentId := 2, studentName := "Bob" }] failingAnalyze =
        Except.error err') ∧
    (∃ r, getClassLearningPatterns "class-2"
      [{ studentId := 2, studentName := "Bob" }]
      (fun s => Except.ok ((fun _ => sampleProfile) s)) = Except.ok r ∧
      r.studentCount = 1 ∧
      r.studentPatterns = [StudentPatternEntry.mk 2 "Bob" sampleProfile]) :=
  ⟨(claimC1_batch_all_or_nothing "class-1"
      [{ studentId := 1, studentName := "Alice" },
       { studentId := 2, studentName := "Bob" }] failingAnalyze).1
      { studentId := 1, studentName := "Alice" } (by simp)
      AnalysisError.upstreamFailure rfl,
   (claimC1_batch_all_or_nothing "class-2"
      [{ studentId := 2, studentName := "Bob" }]
      (fun s => Except.ok ((fun _ => sampleProfile) s))).2
      (fun _ => sampleProfile) rfl⟩

/-- C10: when every per-student analysis succeeds, `classAverages` holds the
arithmetic mean of the students' consistency scores and the mean risk-factor
count, divided by the number of analyzed students with no zero guard: a
class with no enrolled students divides by zero (the `none`/NaN value) in
both averages. -/
theorem claimC10_class_averages (classId : String)
    (enrollments : List Enrollment) (profOf : Nat → LearningProfile) :
    ∃ r, getClassLearningPatterns classId enrollments
        (fun s => Except.ok (profOf s)) = Except.ok r ∧
      r.studentCount = enrollments.length ∧
      r.classAverages.consistencyScore =
        jsAvg (enrollments.map (fun e =>
          (profOf e.studentId).performancePatterns.consistencyScore)) ∧
      r.classAverages.riskFactorCount =
        jsAvg (enrollments.map (fun e =>
          ((profOf e.studentId).riskFactors.length : ℝ))) ∧
      (enrollments = [] → r.classAverages.consistencyScore = none ∧
        r.classAverages.riskFactorCount = none) ∧
      (enrollments ≠ [] → r.classAverages.consistencyScore =
        some ((enrollments.map (fun e =>
          (profOf e.studentId).performancePatterns.consistencyScore)).sum /
          (enrollments.length : ℝ))) := by
  have hok : (enrollments.map (fun e =>
      ((fun s => Except.ok (profOf s)) e.studentId).map (fun p =>
        StudentPatternEntry.mk e.studentId e.studentName p))) =
      enrollments.map (fun e =>
        (Except.ok (StudentPatternEntry.mk e.studentId e.studentName
          (profOf e.studentId)) : Except AnalysisError StudentPatternEntry)) := by
    apply List.map_congr_left
    intro e _
    rfl
  have hres : getClassLearningPatterns classId enrollments
      (fun s => Except.ok (profOf s)) = Except.ok
      { classId := classId
        studentCount := enrollments.length
        studentPatterns := enrollments.map (fun e =>
          StudentPatternEntry.mk e.studentId e.studentName (profOf e.studentId))
        classAverages :=
          { consistencyScore := jsAvg ((enrollments.map (fun e =>
              StudentPatternEntry.mk e.studentId e.studentName
                (profOf e.studentId))).map
              (fun s => s.patterns.performancePatterns.consistencyScore))
            riskFactorCount := jsAvg ((enrollments.map (fun e =>
              StudentPatternEntry.mk e.studentId e.studentName
                (profOf e.studentId))).map
              (fun s => (s.patterns.riskFactors.length : ℝ))) } } := by
    unfold getClassLearningPatterns
    rw [hok, promiseAll_map_ok
      (fun e => StudentPatternEntry.mk e.studentId e.studentName
        (profOf e.studentId)) enrollments]
    rfl
  rw [List.map_map, List.map_map] at hres
  refine ⟨_, hres, rfl, rfl, rfl, fun hnil => ?_, fun hne => ?_⟩
  · subst hnil
    constructor <;> rfl
  · show jsAvg (enrollments.map (fun e =>
      (profOf e.studentId).performancePatterns.consistencyScore)) = _
    unfold jsAvg
    rw [if_neg (by
      rw [List.length_map]
      exact fun hc => hne (List.length_eq_zero.mp hc))]
    rw [List.length_map]

/-- Witness for C10: a concrete two-student class in which both analyses
succeed gives the mean consistency score, and a concrete empty class gives
the NaN (`none`) averages of the unguarded division. -/
theorem claimC10_witness :
    (∃ r, getClassLearningPatterns "class-3"
      [{ studentId := 1, studentName := "Alice" },
       { studentId := 2, studentName := "Bob" }]
      (fun s => Except.ok ((fun _ => sampleProfile) s)) = Except.ok r ∧
      r.classAverages.consistencyScore = some 50) ∧
    (∃ r, getClassLearningPatterns "class-4" []
      (fun s => Except.ok ((fun _ => sampleProfile) s)) = Except.ok r ∧
      r.classAverages.consistencyScore = none ∧
      r.classAverages.riskFactorCount = none) := by
  constructor
  · obtain ⟨r, h1, _, _, _, _, h6⟩ := claimC10_class_averages "class-3"
      [{ studentId := 1, studentName := "Alice" },
       { studentId := 2, studentName := "Bob" }] (fun _ => sampleProfile)
    refine ⟨r, h1, ?_⟩
    rw [h6 (by simp)]
    norm_num [sampleProfile]
  · obtain ⟨r, h1, _, _, _, h5, _⟩ := claimC10_class_averages "class-4" []
      (fun _ => sampleProfile)
    obtain ⟨ha, hb⟩ := h5 rfl
    exact ⟨r, h1, ha, hb⟩

end LearningPatterns
